import Mathlib

/-!
Verification of the VeriWeb URL safety analyser.

The development embeds, as executable Lean definitions:
  * the shipped analysis wrapper `analyzeUrlWithAI` (src/services/geminiService.ts),
    with the external generative model abstracted as a function from request
    contents to an optional parsed response (`none` models a JSON parse failure);
  * the UI logic of the App component (score colouring, step sequencing,
    threat rendering, scan history);
  * the heuristic risk engine described by the specification (parser, signal
    extractor, scorer, classifier, result assembler), which is not present in
    the shipped sources and is therefore modelled from the specification text.
-/

/-- Status enumeration of `AnalysisResult.status` (geminiService.ts line 7). -/
inductive Status where
  | SAFE
  | SUSPICIOUS
  | MALICIOUS
deriving DecidableEq

/-- The `AnalysisResult` interface of geminiService.ts (lines 5-11).
The TypeScript `number` score is embedded as an integer. -/
structure AnalysisResult where
  score : Int
  status : Status
  threats : List String
  recommendations : List String
  explanation : String
deriving DecidableEq

/-- The fixed part of the request contents preceding the interpolated URL
(geminiService.ts line 16). -/
def promptIntro : String := "Analyze the following URL for security risks: "

/-- The fixed part of the request contents following the interpolated URL
(geminiService.ts lines 16-33, the template literal after the interpolation;
apostrophes are written with \x27 escapes). -/
def promptInstructions : String := ". \n    \n    In your analysis, specifically evaluate these heuristic signals and be strict with classifications:\n    1. IP-based URLs: URLs using raw IP addresses (e.g., 192.168.1.1, 103.x.x.x) instead of domain names are extremely high risk for phishing and should be classified as MALICIOUS if they contain sensitive keywords like \x27login\x27 or \x27verify\x27.\n    2. Entropy: Is the domain name random-looking (high entropy)? High entropy (e.g., x7k2p9.com) often indicates malware.\n    3. Homographs: Is it a typosquatted version of a brand (e.g., g00gle.com, paypa1.com, arnazon.com)?\n    4. Punycode: Does it use \x27xn--\x27 (IDN) to deceive users with international characters?\n    5. Redirects: Does it contain multiple \x27http\x27 strings (URL inside a URL), indicating an open redirect?\n    6. Digit Density: Does the domain have more than 3 digits or a high digit-to-character ratio (>20%)?\n    7. Keywords: Are sensitive words like \x27login\x27, \x27verify\x27, \x27bank\x27, \x27secure\x27 in the domain or path?\n    8. Hyphens: Are there consecutive hyphens (\x27--\x27) in the domain?\n    \n    Classification Rules:\n    - MALICIOUS: Clear evidence of phishing, malware, or deceptive intent (e.g., IP-based login pages, typosquatting).\n    - SUSPICIOUS: Unusual patterns that aren\x27t definitively malicious but pose risk.\n    - SAFE: Well-known, trusted domains with standard structures.\n\n    Provide a safety score (0-100, where 100 is perfectly safe), a status classification, a list of potential threats found, recommendations for the user, and a brief explanation."

/-- The request contents sent to the external model: the instruction template
with the URL interpolated (geminiService.ts lines 16-33). -/
def buildPrompt (url : String) : String :=
  promptIntro ++ url ++ promptInstructions

/-- The hard-coded result returned when parsing the model response raises
(geminiService.ts lines 54-60; apostrophes do not occur in these strings). -/
def fallbackResult : AnalysisResult :=
  ⟨50, Status.SUSPICIOUS,
    ["Analysis failed to complete"],
    ["Proceed with extreme caution", "Do not enter sensitive information"],
    "The automated analysis encountered an error while evaluating this link."⟩

/-- Shallow embedding of `analyzeUrlWithAI` (geminiService.ts lines 13-62).
The external generative model is abstracted as `model`, a function from the
request contents to the parsed JSON response: `some r` is a response whose
text parses to `r`; `none` models a response whose text makes `JSON.parse`
throw, in which case the catch branch returns `fallbackResult`. On a parsed
response the code returns it as-is (the TypeScript `as AnalysisResult` cast
performs no validation). -/
def analyzeUrlWithAI (model : String → Option AnalysisResult) (url : String) :
    AnalysisResult :=
  match model (buildPrompt url) with
  | some r => r
  | none => fallbackResult

/-- The `AnalysisStep` union of the App component (App line 32). -/
inductive AnalysisStep where
  | IDLE
  | PROCESSING
  | EXTRACTION
  | PATTERN_ANALYSIS
  | PREDICTION
  | COMPLETED
deriving DecidableEq

/-- `getScoreColor` of the App component (App lines 84-88). -/
def getScoreColor (score : Int) : String :=
  if score ≥ 80 then "text-emerald-500"
  else if score ≥ 50 then "text-amber-500"
  else "text-red-500"

/-- JavaScript-style whitespace for `String.prototype.trim`
(restricted to the ASCII whitespace characters). -/
def isSpaceChar (c : Char) : Bool :=
  c = ' ' || c = '\t' || c = '\n' || c = '\r'

/-- Trim leading and trailing whitespace from a character list
(embedding of `url.trim()`). -/
def trimChars (cs : List Char) : List Char :=
  ((cs.dropWhile isSpaceChar).reverse.dropWhile isSpaceChar).reverse

/-- Number of calls to `analyzeUrlWithAI` that `handleCheck` performs for a
given input: zero when the guard `if (!url || !url.trim()) return;` fires
(App line 43), otherwise exactly one (App line 52). -/
def handleCheckNetworkCalls (url : String) : Nat :=
  if trimChars url.data = [] then 0 else 1

/-- The successive values assigned to the `step` state by `handleCheck`
(App lines 41-73), in program order. `outcome` is the settlement of the
promise returned by `analyzeUrlWithAI`: `some a` if it fulfils with `a`,
`none` if it rejects (in which case the catch branch sets the step back to
IDLE after PATTERN_ANALYSIS, and PREDICTION and COMPLETED are never set). -/
def handleCheckSteps (url : String) (outcome : Option AnalysisResult) :
    List AnalysisStep :=
  if trimChars url.data = [] then []
  else
    match outcome with
    | some _ =>
      [AnalysisStep.PROCESSING, AnalysisStep.EXTRACTION,
       AnalysisStep.PATTERN_ANALYSIS, AnalysisStep.PREDICTION,
       AnalysisStep.COMPLETED]
    | none =>
      [AnalysisStep.PROCESSING, AnalysisStep.EXTRACTION,
       AnalysisStep.PATTERN_ANALYSIS, AnalysisStep.IDLE]

/-- Position of a step in the intended progression, IDLE being the resting
state outside the progression. -/
def stageRank : AnalysisStep → Nat
  | AnalysisStep.IDLE => 0
  | AnalysisStep.PROCESSING => 1
  | AnalysisStep.EXTRACTION => 2
  | AnalysisStep.PATTERN_ANALYSIS => 3
  | AnalysisStep.PREDICTION => 4
  | AnalysisStep.COMPLETED => 5

/-- An entry of the scan-history state (App line 39). -/
structure ScanEntry where
  url : String
  status : Status
  score : Int
deriving DecidableEq

/-- The history update performed on success:
`setHistory(prev => [{ url, status, score }, ...prev].slice(0, 5))`
(App line 67). -/
def updateHistory (prev : List ScanEntry) (e : ScanEntry) : List ScanEntry :=
  (e :: prev).take 5

/-- The net effect of one `handleCheck` run on the history state: unchanged
when the empty-input guard fires or the analysis promise rejects (the catch
branch, App lines 68-72, does not touch history); prepend-and-truncate on
success (App line 67). -/
def handleCheckHistory (url : String) (outcome : Option AnalysisResult)
    (prev : List ScanEntry) : List ScanEntry :=
  if trimChars url.data = [] then prev
  else
    match outcome with
    | some a => updateHistory prev ⟨url, a.status, a.score⟩
    | none => prev

/-- One rendered element of the Detected Threats list (App lines 310-322). -/
inductive ThreatRender where
  | item (threat : String)
  | noThreats
deriving DecidableEq

/-- The Detected Threats list as rendered by the App component: one list item
per threat string (App lines 311-316), followed by the
"No immediate threats detected" element exactly when the threats sequence is
empty (App lines 317-321). -/
def renderThreats (threats : List String) : List ThreatRender :=
  threats.map ThreatRender.item ++
    (if threats.length = 0 then [ThreatRender.noThreats] else [])

/-- Does `pat` occur as a contiguous substring of the text? -/
def containsSub (pat : List Char) : List Char → Bool
  | [] => pat.isEmpty
  | c :: rest => pat.isPrefixOf (c :: rest) || containsSub pat rest

/-- First occurrence split: `some (before, after)` when `pat` occurs, where
`before` is the text before the first occurrence and `after` the text after
it; `none` when it does not occur. -/
def breakSub (pat : List Char) : List Char → Option (List Char × List Char)
  | [] => none
  | c :: rest =>
    if pat.isPrefixOf (c :: rest) then some ([], (c :: rest).drop pat.length)
    else
      match breakSub pat rest with
      | some p => some (c :: p.1, p.2)
      | none => none

/-- Split a character list on a separator character. -/
def splitOnChar (sep : Char) : List Char → List (List Char)
  | [] => [[]]
  | c :: rest =>
    if c = sep then [] :: splitOnChar sep rest
    else
      match splitOnChar sep rest with
      | [] => [[c]]
      | g :: gs => (c :: g) :: gs

/-- Lower-case a character list. -/
def toLowerChars (cs : List Char) : List Char := cs.map Char.toLower

/-- Modelled from the spec: the strict dotted-quad-with-numeric-octets test of
section 4.1 (not a partial match): exactly four dot-separated groups, each
non-empty and all digits. The engine itself is absent from the shipped
sources. -/
def isDottedQuad (host : List Char) : Bool :=
  let parts := splitOnChar '.' host
  parts.length == 4 && parts.all (fun p => !p.isEmpty && p.all Char.isDigit)

/-- Modelled from the spec: the `ParsedUrl` record of section 3. The engine is
absent from the shipped sources, so the parser is reconstructed from the
specification text. -/
structure ParsedUrl where
  scheme : List Char
  host : List Char
  isIpLiteral : Bool
  path : List Char
  query : List Char
  raw : List Char
deriving DecidableEq

/-- Modelled from the spec: the Parser of section 4.1. Trims whitespace; when
no "://" occurs the whole string is host+path with empty scheme; the host is
the substring before the first `/`, `?` or `#` after the scheme, lower-cased;
`isIpLiteral` is the strict dotted-quad test; never raises on malformed input
(unparsable input degrades to an empty-host `ParsedUrl`). -/
def parseUrl (s : String) : ParsedUrl :=
  let raw := trimChars s.data
  let split := breakSub [':', '/', '/'] raw
  let scheme := match split with
    | some p => p.1
    | none => []
  let rest := match split with
    | some p => p.2
    | none => raw
  let host := toLowerChars (rest.takeWhile fun c => !(c = '/' || c = '?' || c = '#'))
  let afterHost := rest.dropWhile fun c => !(c = '/' || c = '?' || c = '#')
  let path := afterHost.takeWhile fun c => !(c = '?' || c = '#')
  let afterPath := afterHost.dropWhile fun c => !(c = '?' || c = '#')
  let query := match afterPath with
    | '?' :: qs => qs.takeWhile fun c => !(c = '#')
    | _ => []
  ⟨scheme, host, isDottedQuad host, path, query, raw⟩

/-- Modelled from the spec: the signal identifiers of the table in
section 4.2. -/
inductive SignalId where
  | LONG_URL
  | AT_SYMBOL
  | IP_HOST
  | EXCESS_HYPHENS
  | SENSITIVE_KEYWORD
  | INSECURE_SCHEME
  | EMPTY_HOST
deriving DecidableEq

/-- Modelled from the spec: the `Signal` record of section 3
(id, integer weight, fixed human-readable description). -/
structure Signal where
  id : SignalId
  weight : Nat
  description : String
deriving DecidableEq

/-- Modelled from the spec: the sensitive-keyword list of section 4.2. -/
def sensitiveKeywords : List (List Char) :=
  ["login", "verify", "bank", "secure", "account", "update"].map String.data

/-- Modelled from the spec: the SignalExtractor of section 4.2. All seven
checks are evaluated independently, each producing at most one signal, in the
table's order (which is the detection order carried into the result). The
exact description wordings are not fixed by the specification; they are fixed
strings here. -/
def extract (u : ParsedUrl) : List Signal :=
  (if u.raw.length > 75 then
    [⟨SignalId.LONG_URL, 10, "URL is unusually long"⟩] else []) ++
  (if u.raw.contains '@' then
    [⟨SignalId.AT_SYMBOL, 15, "URL contains an @ symbol"⟩] else []) ++
  (if u.isIpLiteral then
    [⟨SignalId.IP_HOST, 25, "Host is a raw IP address"⟩] else []) ++
  (if containsSub ['-', '-'] u.host ∨ 3 ≤ u.host.count '-' then
    [⟨SignalId.EXCESS_HYPHENS, 10, "Host contains excessive hyphens"⟩] else []) ++
  (if sensitiveKeywords.any
      (fun k => containsSub k u.host || containsSub k (toLowerChars u.path)) then
    [⟨SignalId.SENSITIVE_KEYWORD, 20, "URL contains a sensitive keyword"⟩] else []) ++
  (if toLowerChars u.scheme = ['h', 't', 't', 'p'] ∨ u.scheme = [] then
    [⟨SignalId.INSECURE_SCHEME, 10, "Connection does not use HTTPS"⟩] else []) ++
  (if u.host = [] then
    [⟨SignalId.EMPTY_HOST, 30, "URL has an empty or unparsable host"⟩] else [])

/-- Modelled from the spec: the Scorer of section 4.3 before clamping: start
at 100 and subtract each fired signal's weight in the order produced. -/
def rawScore (signals : List Signal) : Int :=
  signals.foldl (fun acc s => acc - (s.weight : Int)) 100

/-- Modelled from the spec: the Scorer of section 4.3: the running result is
clamped to [0, 100] after all subtractions. -/
def score (signals : List Signal) : Int :=
  max 0 (min 100 (rawScore signals))

/-- Modelled from the spec: the Classifier of section 4.4, a total function of
the score. The shipped sources contain no status-producing classifier (the
status is produced by the external model); the UI's `getScoreColor` uses the
same thresholds. -/
def classify (score : Int) : Status :=
  if score ≥ 80 then Status.SAFE
  else if score ≥ 50 then Status.SUSPICIOUS
  else Status.MALICIOUS

/-- Modelled from the spec: the status-selected recommendations of
section 4.5 (exact wordings not fixed by the specification). -/
def recommendationsFor : Status → List String
  | Status.SAFE => ["Exercise general caution when sharing personal data"]
  | Status.SUSPICIOUS => ["Avoid entering credentials", "Verify the domain manually"]
  | Status.MALICIOUS => ["Do not click this link", "Report this URL"]

/-- Modelled from the spec: the deterministic template explanation of
section 4.5, summarizing the count and the top (first-detected) signal. -/
def explanationFor (signals : List Signal) : String :=
  match signals with
  | [] => "No heuristic signals fired."
  | s :: _ =>
    toString signals.length ++ " heuristic signal(s) fired; top signal: " ++
      s.description

/-- Modelled from the spec: the full pipeline `analyze` of section 6
(parse, extract, score, classify, assemble). -/
def analyze (s : String) : AnalysisResult :=
  let u := parseUrl s
  let signals := extract u
  let sc := score signals
  let st := classify sc
  ⟨sc, st, signals.map Signal.description, recommendationsFor st,
    explanationFor signals⟩

/-- The score-band colour of each status, for comparing the UI's
`getScoreColor` with the classifier band-wise. -/
def scoreColorOf : Status → String
  | Status.SAFE => "text-emerald-500"
  | Status.SUSPICIOUS => "text-amber-500"
  | Status.MALICIOUS => "text-red-500"

/-- A parsed model response whose score exceeds the documented range,
illustrating that the shipped code performs no validation. -/
def overScored : AnalysisResult := ⟨150, Status.SAFE, [], [], ""⟩

/-- An external model that always answers with `overScored`. -/
def overScoreModel : String → Option AnalysisResult := fun _ => some overScored

/-- A parsed model response with a perfect score. -/
def fullScored : AnalysisResult := ⟨100, Status.SAFE, [], [], ""⟩

/-- An external model that always answers with `fullScored`. -/
def fullScoreModel : String → Option AnalysisResult := fun _ => some fullScored

/-- An external model whose response text never parses. -/
def noneModel : String → Option AnalysisResult := fun _ => none

/-- C1: classification of a score into a status band is a total function over
integers 0..100 with thresholds inclusive to the higher-safety band: a score
of at least 80 is SAFE, of at least 50 but below 80 is SUSPICIOUS, and below
50 is MALICIOUS (so exactly 80 is SAFE and exactly 50 is SUSPICIOUS); the
UI's `getScoreColor` agrees with the classifier band-wise. -/
theorem C1_classify_bands (s : Int) (h0 : 0 ≤ s) (h1 : s ≤ 100) :
    (classify s = Status.SAFE ↔ 80 ≤ s) ∧
    (classify s = Status.SUSPICIOUS ↔ 50 ≤ s ∧ s < 80) ∧
    (classify s = Status.MALICIOUS ↔ s < 50) ∧
    getScoreColor s = scoreColorOf (classify s) := by
  unfold classify getScoreColor scoreColorOf
  by_cases h80 : s ≥ 80 <;> by_cases h50 : s ≥ 50 <;>
    simp [h80, h50] <;> omega

/-- C1 witness: the boundary scores 80 and 50 land in the higher-safety
bands, by the band theorem at those scores. -/
theorem C1_classify_bands_witness :
    classify 80 = Status.SAFE ∧ classify 50 = Status.SUSPICIOUS ∧
    getScoreColor 80 = scoreColorOf (classify 80) := by
  have h80 := C1_classify_bands 80 (by decide) (by decide)
  have h50 := C1_classify_bands 50 (by decide) (by decide)
  exact ⟨h80.1.mpr (by decide), h50.2.1.mpr (by decide), h80.2.2.2⟩

/-- C2 counterexample: the shipped analysis function performs no score
validation, so with an external response that parses to a score of 150 the
returned score lies outside [0, 100]. -/
theorem C2_counterexample :
    (analyzeUrlWithAI overScoreModel "https://example.com").score = 150 ∧
    ¬ (0 ≤ (analyzeUrlWithAI overScoreModel "https://example.com").score ∧
       (analyzeUrlWithAI overScoreModel "https://example.com").score ≤ 100) := by
  decide

/-- C2 (amended): the score of the returned result lies in [0, 100] provided
every parsed external response has its score in [0, 100]; on a parse failure
the fallback score 50 is in range. The code itself never clamps or
validates. -/
theorem C2_score_range_conditional (model : String → Option AnalysisResult)
    (url : String)
    (h : ∀ r, model (buildPrompt url) = some r → 0 ≤ r.score ∧ r.score ≤ 100) :
    0 ≤ (analyzeUrlWithAI model url).score ∧
    (analyzeUrlWithAI model url).score ≤ 100 := by
  unfold analyzeUrlWithAI
  cases hm : model (buildPrompt url) with
  | none => exact ⟨by decide, by decide⟩
  | some r => exact h r hm

/-- C2 witness: instantiation of the amended range theorem at the
never-parsing model, where the hypothesis holds vacuously. -/
theorem C2_score_range_conditional_witness :
    0 ≤ (analyzeUrlWithAI noneModel "https://example.com").score ∧
    (analyzeUrlWithAI noneModel "https://example.com").score ≤ 100 :=
  C2_score_range_conditional noneModel "https://example.com"
    (fun r h => by simp [noneModel] at h)

/-- C3 counterexample: two runs on the same input string in which the
external model answers differently (a parsed full-score response versus an
unparsable response) return different AnalysisResult values, so the analysis
is not a function of the input string alone. -/
theorem C3_counterexample :
    analyzeUrlWithAI fullScoreModel "https://example.com" ≠
    analyzeUrlWithAI noneModel "https://example.com" := by
  decide

/-- C3 (amended): the shipped code adds no nondeterminism of its own: the
returned result is determined by the external model's response alone, so two
runs (even on different URLs) that receive the same response yield identical
results. -/
theorem C3_response_determines_result (m1 m2 : String → Option AnalysisResult)
    (u1 u2 : String) (h : m1 (buildPrompt u1) = m2 (buildPrompt u2)) :
    analyzeUrlWithAI m1 u1 = analyzeUrlWithAI m2 u2 := by
  unfold analyzeUrlWithAI
  rw [h]

/-- C3 witness: instantiation of the response-determinism theorem at the
never-parsing model on two distinct URLs. -/
theorem C3_response_determines_result_witness :
    analyzeUrlWithAI noneModel "https://a.example" =
    analyzeUrlWithAI noneModel "https://b.example" :=
  C3_response_determines_result noneModel noneModel "https://a.example"
    "https://b.example" rfl

/-- C4: the shipped analysis code forwards the heuristic instructions inside
a fixed natural-language request with the URL interpolated, and whenever the
external response parses it is returned as the AnalysisResult unchanged —
no local signal computation, validation or modification. -/
theorem C4_passthrough_and_prompt (model : String → Option AnalysisResult)
    (url : String) :
    buildPrompt url = promptIntro ++ url ++ promptInstructions ∧
    ∀ r, model (buildPrompt url) = some r → analyzeUrlWithAI model url = r := by
  refine ⟨rfl, fun r h => ?_⟩
  unfold analyzeUrlWithAI
  rw [h]

/-- C4 witness: the passthrough theorem applied to a model answering with a
concrete parsed response. -/
theorem C4_passthrough_and_prompt_witness :
    analyzeUrlWithAI fullScoreModel "http://192.168.1.5/login" = fullScored :=
  (C4_passthrough_and_prompt fullScoreModel "http://192.168.1.5/login").2
    fullScored rfl

/-- C5: on the empty string the (spec-modelled) analysis is a total function
that fires exactly EMPTY_HOST (weight 30) and INSECURE_SCHEME (weight 10),
giving score 60 and status SUSPICIOUS. -/
theorem C5_empty_input :
    (extract (parseUrl "")).map Signal.id =
      [SignalId.INSECURE_SCHEME, SignalId.EMPTY_HOST] ∧
    (extract (parseUrl "")).map Signal.weight = [10, 30] ∧
    (analyze "").score = 60 ∧
    (analyze "").status = Status.SUSPICIOUS := by
  decide

/-- C6: on `http://192.168.1.5/login` the (spec-modelled) analysis fires
exactly IP_HOST (25), SENSITIVE_KEYWORD (20) and INSECURE_SCHEME (10),
giving score 45 and status MALICIOUS. -/
theorem C6_ip_login_scenario :
    (extract (parseUrl "http://192.168.1.5/login")).map Signal.id =
      [SignalId.IP_HOST, SignalId.SENSITIVE_KEYWORD, SignalId.INSECURE_SCHEME] ∧
    (extract (parseUrl "http://192.168.1.5/login")).map Signal.weight =
      [25, 20, 10] ∧
    (analyze "http://192.168.1.5/login").score = 45 ∧
    (analyze "http://192.168.1.5/login").status = Status.MALICIOUS := by
  decide

/-- C7: the Detected Threats list renders the "no threats detected" element
exactly when the threats sequence is empty, and otherwise renders one list
item per threat string. -/
theorem C7_threats_rendering (ts : List String) :
    (ts = [] → renderThreats ts = [ThreatRender.noThreats]) ∧
    (ts ≠ [] → renderThreats ts = ts.map ThreatRender.item) := by
  constructor
  · rintro rfl
    rfl
  · intro h
    cases ts with
    | nil => exact absurd rfl h
    | cons a t => simp [renderThreats]

/-- C7 witness: the rendering theorem evaluated on an empty and on a
one-element threats sequence. -/
theorem C7_threats_rendering_witness :
    renderThreats [] = [ThreatRender.noThreats] ∧
    renderThreats ["Suspicious host"] = [ThreatRender.item "Suspicious host"] :=
  ⟨(C7_threats_rendering []).1 rfl,
   (C7_threats_rendering ["Suspicious host"]).2 (by simp)⟩

/-- C8 counterexample: a genuine analysis request (non-empty URL, one network
call) whose promise rejects steps PROCESSING, EXTRACTION, PATTERN_ANALYSIS
and then returns to IDLE, never visiting PREDICTION or COMPLETED — so not
every analysis request is driven through the full five-stage sequence. -/
theorem C8_counterexample :
    handleCheckNetworkCalls "https://example.com" = 1 ∧
    handleCheckSteps "https://example.com" none =
      [AnalysisStep.PROCESSING, AnalysisStep.EXTRACTION,
       AnalysisStep.PATTERN_ANALYSIS, AnalysisStep.IDLE] ∧
    AnalysisStep.PREDICTION ∉ handleCheckSteps "https://example.com" none ∧
    AnalysisStep.COMPLETED ∉ handleCheckSteps "https://example.com" none := by
  decide

/-- C8 (amended): every analysis request with a non-empty trimmed URL makes
exactly one network call and visits the non-IDLE stages in strictly
increasing order; on success the step state runs through the full sequence
PROCESSING, EXTRACTION, PATTERN_ANALYSIS, PREDICTION, COMPLETED, while on
failure it returns to IDLE after PATTERN_ANALYSIS. -/
theorem C8_steps_amended (url : String) (outcome : Option AnalysisResult)
    (h : trimChars url.data ≠ []) :
    handleCheckNetworkCalls url = 1 ∧
    List.Chain' (fun a b => stageRank a < stageRank b)
      ((handleCheckSteps url outcome).filter
        (fun s => s != AnalysisStep.IDLE)) ∧
    (∀ a, outcome = some a → handleCheckSteps url outcome =
      [AnalysisStep.PROCESSING, AnalysisStep.EXTRACTION,
       AnalysisStep.PATTERN_ANALYSIS, AnalysisStep.PREDICTION,
       AnalysisStep.COMPLETED]) ∧
    (outcome = none → handleCheckSteps url outcome =
      [AnalysisStep.PROCESSING, AnalysisStep.EXTRACTION,
       AnalysisStep.PATTERN_ANALYSIS, AnalysisStep.IDLE]) := by
  have hcalls : handleCheckNetworkCalls url = 1 := by
    unfold handleCheckNetworkCalls
    rw [if_neg h]
  cases outcome with
  | none =>
    have hs : handleCheckSteps url none =
        [AnalysisStep.PROCESSING, AnalysisStep.EXTRACTION,
         AnalysisStep.PATTERN_ANALYSIS, AnalysisStep.IDLE] := by
      unfold handleCheckSteps
      rw [if_neg h]
    refine ⟨hcalls, ?_, ?_, fun _ => hs⟩
    · rw [hs]
      simp [List.chain'_cons, stageRank]
    · intro a ha
      cases ha
  | some a =>
    have hs : handleCheckSteps url (some a) =
        [AnalysisStep.PROCESSING, AnalysisStep.EXTRACTION,
         AnalysisStep.PATTERN_ANALYSIS, AnalysisStep.PREDICTION,
         AnalysisStep.COMPLETED] := by
      unfold handleCheckSteps
      rw [if_neg h]
    refine ⟨hcalls, ?_, ?_, ?_⟩
    · rw [hs]
      simp [List.chain'_cons, stageRank]
    · intro b hb
      cases hb
      exact hs
    · intro hn
      cases hn

/-- C8 witness: the amended step theorem at a concrete successful request. -/
theorem C8_steps_amended_witness :
    handleCheckNetworkCalls "https://example.com" = 1 ∧
    handleCheckSteps "https://example.com" (some fallbackResult) =
      [AnalysisStep.PROCESSING, AnalysisStep.EXTRACTION,
       AnalysisStep.PATTERN_ANALYSIS, AnalysisStep.PREDICTION,
       AnalysisStep.COMPLETED] := by
  have h := C8_steps_amended "https://example.com" (some fallbackResult)
    (by decide)
  exact ⟨h.1, h.2.2.1 fallbackResult rfl⟩

/-- C9: whenever the external response text fails to parse, the analysis
does not throw and returns the fixed fallback result: score 50, status
SUSPICIOUS, the single threat "Analysis failed to complete", the two fixed
caution recommendations, and the fixed explanation string. -/
theorem C9_parse_failure_fallback (model : String → Option AnalysisResult)
    (url : String) (h : model (buildPrompt url) = none) :
    analyzeUrlWithAI model url = fallbackResult ∧
    (analyzeUrlWithAI model url).score = 50 ∧
    (analyzeUrlWithAI model url).status = Status.SUSPICIOUS ∧
    (analyzeUrlWithAI model url).threats = ["Analysis failed to complete"] ∧
    (analyzeUrlWithAI model url).recommendations =
      ["Proceed with extreme caution", "Do not enter sensitive information"] ∧
    (analyzeUrlWithAI model url).explanation =
      "The automated analysis encountered an error while evaluating this link." := by
  have e : analyzeUrlWithAI model url = fallbackResult := by
    unfold analyzeUrlWithAI
    rw [h]
  rw [e]
  exact ⟨rfl, rfl, rfl, rfl, rfl, rfl⟩

/-- C9 witness: the fallback theorem at the never-parsing model. -/
theorem C9_parse_failure_fallback_witness :
    analyzeUrlWithAI noneModel "https://example.com" = fallbackResult :=
  (C9_parse_failure_fallback noneModel "https://example.com" rfl).1

/-- C10: after every successful analysis the scan history is the new entry
(url, status, score) prepended and the list truncated to length 5, so it
holds at most 5 entries with the most recent first; a failed analysis leaves
the history unchanged. -/
theorem C10_history_invariants (url : String) (outcome : Option AnalysisResult)
    (prev : List ScanEntry) (h : trimChars url.data ≠ []) :
    (∀ a, outcome = some a →
      handleCheckHistory url outcome prev =
        (ScanEntry.mk url a.status a.score :: prev).take 5 ∧
      (handleCheckHistory url outcome prev).length ≤ 5 ∧
      (handleCheckHistory url outcome prev).head? =
        some (ScanEntry.mk url a.status a.score)) ∧
    (outcome = none → handleCheckHistory url outcome prev = prev) := by
  cases outcome with
  | none =>
    refine ⟨?_, fun _ => ?_⟩
    · intro a ha
      cases ha
    · unfold handleCheckHistory
      rw [if_neg h]
  | some a =>
    have hs : handleCheckHistory url (some a) prev =
        (ScanEntry.mk url a.status a.score :: prev).take 5 := by
      unfold handleCheckHistory updateHistory
      rw [if_neg h]
    refine ⟨?_, ?_⟩
    · intro b hb
      cases hb
      refine ⟨hs, ?_, ?_⟩
      · rw [hs, List.length_take]
        exact min_le_left _ _
      · rw [hs]
        rfl
    · intro hn
      cases hn

/-- C10 witness: the history theorem at a concrete successful run on an
empty history and at a concrete failed run. -/
theorem C10_history_invariants_witness :
    handleCheckHistory "https://example.com" (some fallbackResult) [] =
      [ScanEntry.mk "https://example.com" Status.SUSPICIOUS 50] ∧
    handleCheckHistory "https://example.com" none [] = [] := by
  have hs := C10_history_invariants "https://example.com" (some fallbackResult)
    [] (by decide)
  have hn := C10_history_invariants "https://example.com" none [] (by decide)
  exact ⟨(hs.1 fallbackResult rfl).1, hn.2 rfl⟩
